import Mathlib

/-!
Verification of the Perpetual routing pipeline against its specification.

The definitions below are shallow embeddings of the Python sources:

- pipeline/routes/common.py        (Range, SimulationParams, ParameterSweep)
- pipeline/routes/google_or.py     (GoogleORToolsClient: solve_cvrp,
                                    solve_bidirectional_cvrp, _parse_solution)
- pipeline/utils/google_cvrp.py    (create_data_model)
- pipeline/combine_dropoffs_pickups.py
- pipeline/segment_pickup_loops.py
- pipeline/sensitivity_analysis.py

Numeric conventions used throughout this file: tote demands and solver-side
distances are integers (the solver input is produced by an astype(int) cast,
and demand columns hold whole tote counts); raw distance-matrix entries and
raw demand columns, where the fractional part matters, are rationals.
The external OR-Tools solver is modelled as an oracle argument: the solver
itself is out of scope, only the contract of its capacity dimension
(zero slack, start cumul fixed to zero, bounds 0 and vehicle capacity) is
used, as an explicit hypothesis where a theorem needs it.
-/

namespace Perpetual

/-! ### Python primitives -/

/-- One step of Python `range(start, stop, step)` for a positive `step`:
emit `start` while `start < stop`, advancing by `step`.  The fuel argument
makes the recursion structural; `pyRange` supplies enough fuel. -/
def pyRangeAux (step : Int) : Nat → Int → Int → List Int
  | 0, _, _ => []
  | fuel + 1, start, stop =>
      if start < stop then start :: pyRangeAux step fuel (start + step) stop else []

/-- Python `range(start, stop, step)` for a positive `step`. -/
def pyRange (start stop step : Int) : List Int :=
  pyRangeAux step (stop - start).toNat start stop

/-! ### pipeline/routes/common.py -/

/-- `Range` dataclass (common.py): documented as an inclusive integer range
with inclusive lower bound `min` and inclusive upper bound `max`. -/
structure Range where
  min : Int
  max : Int
  step : Int
deriving DecidableEq

/-- `Range.values` (common.py line 36): `list(range(self.min, self.max + self.step, self.step))`. -/
def Range.values (r : Range) : List Int :=
  pyRange r.min (r.max + r.step) r.step

/-- `SimulationParams` dataclass (common.py). -/
structure SimulationParams where
  demand_column : String
  num_vehicles : Int
  vehicle_capacity : Int
  runtime : Int
deriving DecidableEq

/-- `ParameterSweep` dataclass (common.py). -/
structure ParameterSweep where
  name : String
  demand_column : String
  num_vehicles : Range
  vehicle_capacity : Range
  simulation_runtime : Range
deriving DecidableEq

/-- Semantics of `itertools.product(xs, ys, zs)`: the first iterable varies
slowest, the last varies fastest. -/
def itertoolsProduct3 {α β γ : Type} (xs : List α) (ys : List β) (zs : List γ) :
    List (α × β × γ) :=
  xs.flatMap fun x => ys.flatMap fun y => zs.map fun z => (x, y, z)

/-- `ParameterSweep.yield_simulation_params` (common.py lines 109-130):
iterates `itertools.product(simulation_runtimes, vehicle_counts,
vehicle_capacities)` and yields a `SimulationParams` per combination. -/
def ParameterSweep.yield_simulation_params (s : ParameterSweep) : List SimulationParams :=
  (itertoolsProduct3 s.simulation_runtime.values s.num_vehicles.values
      s.vehicle_capacity.values).map
    fun t => ⟨s.demand_column, t.2.1, t.2.2, t.1⟩

/-- Modelled from the spec for comparison with the source: the Cartesian
product enumerated with runtime as the outer loop, then vehicle count, then
capacity (spec section 4.6). -/
def specSimulationGrid (s : ParameterSweep) : List SimulationParams :=
  s.simulation_runtime.values.flatMap fun rt =>
    s.num_vehicles.values.flatMap fun v =>
      s.vehicle_capacity.values.map fun c => ⟨s.demand_column, v, c, rt⟩

lemma flatMapMap_length {β γ δ : Type} (ys : List β) (zs : List γ) (g : β → γ → δ) :
    (ys.flatMap fun y => zs.map (g y)).length = ys.length * zs.length := by
  induction ys with
  | nil => simp
  | cons y t ih =>
      simp only [List.flatMap_cons, List.length_append, List.length_map, ih,
        List.length_cons]
      ring

lemma itertoolsProduct3_length {α β γ : Type} (xs : List α) (ys : List β) (zs : List γ) :
    (itertoolsProduct3 xs ys zs).length = xs.length * ys.length * zs.length := by
  induction xs with
  | nil => simp [itertoolsProduct3]
  | cons x t ih =>
      simp only [itertoolsProduct3, List.flatMap_cons, List.length_append] at ih ⊢
      rw [ih, flatMapMap_length]
      simp [List.length_cons]
      ring

/-- C8: yield_simulation_params enumerates exactly the Cartesian product of
the three parameter ranges, with runtime as the outer loop, then vehicle
count, then capacity, and the number of yielded parameter sets is the
product of the three list lengths. -/
theorem c8_yield_simulation_params_product (s : ParameterSweep) :
    s.yield_simulation_params = specSimulationGrid s ∧
    s.yield_simulation_params.length =
      s.simulation_runtime.values.length * s.num_vehicles.values.length *
        s.vehicle_capacity.values.length := by
  constructor
  · simp [ParameterSweep.yield_simulation_params, specSimulationGrid,
      itertoolsProduct3, List.map_flatMap, Function.comp_def]
  · simp only [ParameterSweep.yield_simulation_params, List.length_map]
    exact itertoolsProduct3_length _ _ _

/-- C7: Range(0, 5, 3).values evaluates to [0, 3, 6]; the element 6 exceeds
the documented inclusive upper bound max = 5, so values is not contained in
[min, max]. -/
theorem c7_range_values_overshoot_eval :
    Range.values ⟨0, 5, 3⟩ = [0, 3, 6] ∧
    ∃ v ∈ Range.values ⟨0, 5, 3⟩, ¬ v ≤ (5 : Int) := by
  decide

/-! ### pipeline/routes/google_or.py: solve_cvrp data model -/

/-- Truncation toward zero of a rational, the semantics of the
numpy astype(int) cast applied by solve_cvrp to the distance matrix and the
demand column (google_or.py lines 135-136). -/
def ratTrunc (q : ℚ) : Int :=
  q.num.tdiv q.den

/-- The dictionary built at the top of solve_cvrp (google_or.py lines
133-139) and by create_data_model (google_cvrp.py lines 44-55). -/
structure DataModel where
  distance_matrix : List (List Int)
  demands : List Int
  num_vehicles : Nat
  vehicle_capacities : List Int
  depot : Nat
deriving DecidableEq

/-- solve_cvrp lines 133-139: distance matrix and demand column are cast
with astype(int); vehicle_capacities is one copy of the capacity per
vehicle; the depot is location 0.  No validation of any kind is performed
on the inputs. -/
def createDataModel (demandValues : List ℚ) (distances : List (List ℚ))
    (num_vehicles : Nat) (vehicle_capacity : Int) : DataModel where
  distance_matrix := distances.map fun row => row.map ratTrunc
  demands := demandValues.map ratTrunc
  num_vehicles := num_vehicles
  vehicle_capacities := List.replicate num_vehicles vehicle_capacity
  depot := 0

/-- Entry lookup in the integer-cast distance matrix, as done by the
registered transit callback (google_or.py lines 150-154). -/
def matrixEntry (m : List (List Int)) (i j : Nat) : Int :=
  (m.getD i []).getD j 0

/-! ### pipeline/routes/google_or.py: _parse_solution

A solver solution is modelled as one node sequence per vehicle: the full
walk of the `while not routing.IsEnd(index)` loop followed by the final
end node, i.e. the sequence starts at the depot and ends at the depot.
-/

/-- The Truck_Load column of one route (google_or.py lines 63-86): the
running load adds the demand of every visited node including the starting
depot; the final end node repeats the last value instead of adding its
demand again. -/
def parseLoads (demands : List Int) : Int → List Nat → List Int
  | _, [] => []
  | load, [_] => [load]
  | load, node :: next :: rest =>
      (load + demands.getD node 0) ::
        parseLoads demands (load + demands.getD node 0) (next :: rest)

/-- The Cumulative_Distance column of one route (google_or.py lines
63-86): the distance accumulated so far is recorded at each stop before
the arc to the next stop is added; the end node records the total. -/
def parseDists (m : List (List Int)) : Int → List Nat → List Int
  | _, [] => []
  | dist, [_] => [dist]
  | dist, node :: next :: rest =>
      dist :: parseDists m (dist + matrixEntry m node next) (next :: rest)

/-- One row of the output table assembled by solve_cvrp from the parsed
solution (google_or.py lines 199-209). -/
structure StopRow where
  originalIndex : Nat
  route : Nat
  stopNumber : Nat
  cumulativeDistance : Int
  truckLoad : Int
deriving DecidableEq

/-- The rows contributed by vehicle i (google_or.py lines 199-209): the
route's node sequence with Route = i, Route Stop Number = 1.., and the
parsed cumulative distance and truck load columns. -/
def vehicleRows (data : DataModel) (solution : List (List Nat)) (i : Nat) :
    List StopRow :=
  let seq := solution.getD i []
  let dists := parseDists data.distance_matrix 0 seq
  let loads := parseLoads data.demands 0 seq
  (List.range seq.length).map fun k =>
    ⟨seq.getD k 0, i, k + 1, dists.getD k 0, loads.getD k 0⟩

/-- The concatenated output table of solve_cvrp: one block of rows per
vehicle id 0 .. num_vehicles-1 (google_or.py lines 63, 199-209; the
solution carries one route per vehicle). -/
def buildRouteTable (data : DataModel) (solution : List (List Nat)) :
    List StopRow :=
  (List.range solution.length).flatMap (vehicleRows data solution)

/-- solve_cvrp with the external OR-Tools search abstracted as an oracle:
build the data model, hand it to the solver, return None when the solver
finds nothing and the parsed route table otherwise (google_or.py lines
133-211). -/
def solve_cvrp (oracle : DataModel → Option (List (List Nat)))
    (demandValues : List ℚ) (distances : List (List ℚ))
    (num_vehicles : Nat) (vehicle_capacity : Int) : Option (List StopRow) :=
  let data := createDataModel demandValues distances num_vehicles vehicle_capacity
  match oracle data with
  | none => none
  | some solution => some (buildRouteTable data solution)

/-- The metadata route count of main.py lines 260-263:
len(routes_df["Route"].unique()), with pandas unique keeping first
occurrences in order. -/
def numRoutesFound (table : List StopRow) : Nat :=
  ((table.map StopRow.route).foldl
    (fun acc x => if x ∈ acc then acc else acc ++ [x]) []).length

lemma ratTrunc_eq_floor {q : ℚ} (hq : 0 ≤ q) : ratTrunc q = ⌊q⌋ := by
  have hnum : 0 ≤ q.num := Rat.num_nonneg.mpr hq
  rw [ratTrunc, Int.tdiv_eq_ediv hnum (Int.natCast_nonneg q.den)]
  exact Rat.floor_def.symm

lemma ratTrunc_neg (q : ℚ) : ratTrunc (-q) = -ratTrunc q := by
  rw [ratTrunc, ratTrunc, Rat.neg_num, Rat.neg_den, Int.neg_tdiv]

lemma ratTrunc_eq_ceil {q : ℚ} (hq : q ≤ 0) : ratTrunc q = ⌈q⌉ := by
  have h1 : ratTrunc (-q) = ⌊-q⌋ := ratTrunc_eq_floor (neg_nonneg.mpr hq)
  rw [ratTrunc_neg, Int.floor_neg] at h1
  exact neg_injective h1

/-- C9: the data model used for solving casts every distance-matrix entry
and every demand value with astype(int), i.e. truncation toward zero
(ratTrunc agrees with the floor on nonnegative inputs and with the
ceiling on nonpositive inputs), so all solver-side quantities are
integers and fractional parts of the inputs are silently discarded. -/
theorem c9_astype_truncation (demandValues : List ℚ) (distances : List (List ℚ))
    (n : Nat) (cap : Int) :
    (createDataModel demandValues distances n cap).demands =
      demandValues.map ratTrunc ∧
    (createDataModel demandValues distances n cap).distance_matrix =
      distances.map (fun row => row.map ratTrunc) ∧
    (∀ q : ℚ, 0 ≤ q → ratTrunc q = ⌊q⌋) ∧
    (∀ q : ℚ, q ≤ 0 → ratTrunc q = ⌈q⌉) :=
  ⟨rfl, rfl, fun _ hq => ratTrunc_eq_floor hq, fun _ hq => ratTrunc_eq_ceil hq⟩

/-- A concrete rational with value 7/2. -/
def qPosEx : ℚ := ⟨7, 2, by decide, by decide⟩

/-- A concrete rational with value -7/2. -/
def qNegEx : ℚ := ⟨-7, 2, by decide, by decide⟩

/-- C9 witness: the data model truncates 7/2 to 3 and -7/2 to -3. -/
theorem c9_astype_truncation_witness :
    (createDataModel [qPosEx, qNegEx] [[qNegEx]] 2 5).demands = [3, -3] ∧
    ratTrunc qPosEx = ⌊qPosEx⌋ ∧ ratTrunc qNegEx = ⌈qNegEx⌉ :=
  ⟨((c9_astype_truncation [qPosEx, qNegEx] [[qNegEx]] 2 5).1).trans (by decide),
   (c9_astype_truncation [] [] 0 0).2.2.1 qPosEx (by decide),
   (c9_astype_truncation [] [] 0 0).2.2.2 qNegEx (by decide)⟩

/-- A concrete rational with value -3. -/
def qNegThree : ℚ := ⟨-3, 1, by decide, by decide⟩

/-- C6 counterexample: solve_cvrp performs no input validation.  On an
input whose demand column contains the negative value -3, no error of any
kind is raised before solving: the data model (with the negative demand in
it) is handed to the solver, and with a solver returning an unused single
vehicle the call returns a parsed route table. -/
theorem c6_no_validation_counterexample :
    solve_cvrp (fun _ => some [[0, 0]]) [qNegThree] [[0]] 1 5 =
      some [⟨0, 0, 1, 0, -3⟩, ⟨0, 0, 2, 0, -3⟩] ∧
    qNegThree < 0 := by
  exact ⟨rfl, by decide⟩

/-- C6 amended: neither solve_cvrp nor create_data_model validates its
input.  A negative input demand survives (truncated) into the data model
handed to the solver, and the solve fails only when the solver itself
finds no solution, never because of a validation error. -/
theorem c6_no_validation_amended (demandValues : List ℚ)
    (distances : List (List ℚ)) (n : Nat) (cap : Int)
    (oracle : DataModel → Option (List (List Nat)))
    (i : Nat) (hi : i < demandValues.length)
    (hneg : demandValues.get ⟨i, hi⟩ ≤ -1) :
    (createDataModel demandValues distances n cap).demands.getD i 0 < 0 ∧
    (solve_cvrp oracle demandValues distances n cap = none ↔
      oracle (createDataModel demandValues distances n cap) = none) := by
  constructor
  · have hlen : i < (demandValues.map ratTrunc).length := by simpa using hi
    have hd : (createDataModel demandValues distances n cap).demands.getD i 0 =
        ratTrunc (demandValues.get ⟨i, hi⟩) := by
      show (demandValues.map ratTrunc).getD i 0 = _
      rw [List.getD_eq_getElem _ _ hlen, List.getElem_map]
      rfl
    rw [hd, ratTrunc_eq_ceil (le_trans hneg (by norm_num))]
    have hce : ⌈demandValues.get ⟨i, hi⟩⌉ ≤ ⌈(-1 : ℚ)⌉ := Int.ceil_le_ceil hneg
    have hm1 : ⌈(-1 : ℚ)⌉ = -1 := by exact_mod_cast Int.ceil_intCast (-1 : ℤ)
    omega
  · cases h : oracle (createDataModel demandValues distances n cap) <;>
      simp [solve_cvrp, h]

/-- C6 witness: the amended statement at the concrete negative demand -3. -/
theorem c6_no_validation_witness :
    (createDataModel [qNegThree] [[0]] 1 5).demands.getD 0 0 < 0 :=
  (c6_no_validation_amended [qNegThree] [[0]] 1 5 (fun _ => some [[0, 0]]) 0
    (by decide) (by decide)).1

/-! ### The capacity dimension contract and the Truck_Load invariant -/

/-- The cumulative value of the Capacity dimension at position k of a
route: the sum of the demands of the first k visited nodes.  With zero
slack and the start cumul fixed to zero (google_or.py lines 168-174),
this is exactly the value OR-Tools constrains to lie between 0 and the
vehicle capacity at every node of the route. -/
def cumulLoad (demands : List Int) (seq : List Nat) (k : Nat) : Int :=
  ((seq.take k).map fun n => demands.getD n 0).sum

/-- The capacity-dimension contract for one solved route: at every node
position the cumulative load lies within [0, cap]. -/
def CapacityFeasible (demands : List Int) (cap : Int) (seq : List Nat) : Prop :=
  ∀ k, k < seq.length → 0 ≤ cumulLoad demands seq k ∧ cumulLoad demands seq k ≤ cap

instance (demands : List Int) (cap : Int) (seq : List Nat) :
    Decidable (CapacityFeasible demands cap seq) :=
  decidable_of_iff
    (∀ k, k < seq.length →
      0 ≤ cumulLoad demands seq k ∧ cumulLoad demands seq k ≤ cap) Iff.rfl

lemma mem_parseLoads (demands : List Int) :
    ∀ (seq : List Nat) (a l : Int), l ∈ parseLoads demands a seq →
      ∃ k, k < seq.length ∧ l = a + cumulLoad demands seq k := by
  intro seq
  induction seq with
  | nil => intro a l h; simp [parseLoads] at h
  | cons x tail ih =>
    intro a l h
    cases tail with
    | nil =>
      simp only [parseLoads, List.mem_singleton] at h
      exact ⟨0, by simp, by simp [cumulLoad, h]⟩
    | cons y rest =>
      rw [parseLoads] at h
      rcases List.mem_cons.mp h with h1 | h2
      · refine ⟨1, by simp, ?_⟩
        simp [cumulLoad, h1]
      · obtain ⟨k, hk, hl⟩ := ih (a + demands.getD x 0) l h2
        refine ⟨k + 1, by simpa using Nat.succ_lt_succ hk, ?_⟩
        rw [hl]
        simp [cumulLoad, List.take_succ_cons, add_assoc]

lemma parseLoads_length (demands : List Int) :
    ∀ (seq : List Nat) (a : Int), (parseLoads demands a seq).length = seq.length := by
  intro seq
  induction seq with
  | nil => intro a; rfl
  | cons x tail ih =>
    intro a
    cases tail with
    | nil => rfl
    | cons y rest => simp [parseLoads, ih]

/-- C3: for every route of a solution that satisfies the capacity
dimension registered by solve_cvrp (zero slack, start cumul fixed to
zero, cumulative load within [0, cap] at every node), every Truck_Load
value recorded in the parsed output table lies in [0, cap]. -/
theorem c3_truck_load_bounds (data : DataModel) (solution : List (List Nat))
    (cap : Int) (hfeas : ∀ seq ∈ solution, CapacityFeasible data.demands cap seq) :
    ∀ row ∈ buildRouteTable data solution,
      0 ≤ row.truckLoad ∧ row.truckLoad ≤ cap := by
  intro row hrow
  obtain ⟨i, hi, hmem⟩ := List.mem_flatMap.mp hrow
  have hilen : i < solution.length := List.mem_range.mp hi
  obtain ⟨k, hk, hrk⟩ := List.mem_map.mp hmem
  have hkseq : k < (solution.getD i []).length := List.mem_range.mp hk
  have hload : row.truckLoad =
      (parseLoads data.demands 0 (solution.getD i [])).getD k 0 := by
    rw [← hrk]
  have hklen : k < (parseLoads data.demands 0 (solution.getD i [])).length := by
    rw [parseLoads_length]; exact hkseq
  have hmem2 : (parseLoads data.demands 0 (solution.getD i [])).getD k 0 ∈
      parseLoads data.demands 0 (solution.getD i []) := by
    rw [List.getD_eq_getElem _ _ hklen]
    exact List.getElem_mem hklen
  obtain ⟨j, hj, hval⟩ :=
    mem_parseLoads data.demands (solution.getD i []) 0 _ hmem2
  have hseqmem : solution.getD i [] ∈ solution := by
    rw [List.getD_eq_getElem _ _ hilen]
    exact List.getElem_mem hilen
  have := hfeas (solution.getD i []) hseqmem j hj
  rw [hload, hval, zero_add]
  exact this

/-- C3 witness: on the concrete feasible route 0 -> 1 -> 2 -> 0 with
demands [0, 2, -1] and capacity 2, the output row of the second stop
(original index 1, cumulative distance 1, truck load 2) has its recorded
load within [0, 2]. -/
theorem c3_truck_load_bounds_witness :
    0 ≤ (⟨1, 0, 2, 1, 2⟩ : StopRow).truckLoad ∧
      (⟨1, 0, 2, 1, 2⟩ : StopRow).truckLoad ≤ 2 :=
  c3_truck_load_bounds ⟨[[0, 1, 1], [1, 0, 1], [1, 1, 0]], [0, 2, -1], 1, [2], 0⟩
    [[0, 1, 2, 0]] 2 (by decide) ⟨1, 0, 2, 1, 2⟩ (by decide)

/-! ### C10: route groups and unused vehicles -/

lemma vehicleRows_route (data : DataModel) (solution : List (List Nat)) (j : Nat) :
    ∀ r ∈ vehicleRows data solution j, r.route = j := by
  intro r hr
  obtain ⟨k, _, hrk⟩ := List.mem_map.mp hr
  rw [← hrk]

lemma filter_flatMap_blocks (f : Nat → List StopRow) (i : Nat)
    (hf : ∀ j, ∀ r ∈ f j, r.route = j) :
    ∀ l : List Nat, (l.flatMap f).filter (fun r => r.route == i) =
      (l.filter (fun j => j == i)).flatMap f := by
  intro l
  induction l with
  | nil => rfl
  | cons a t ih =>
    simp only [List.flatMap_cons, List.filter_append, List.filter_cons]
    by_cases h : a = i
    · subst h
      have hself : (f a).filter (fun r => r.route == a) = f a :=
        List.filter_eq_self.mpr fun r hr => by simp [hf a r hr]
      simp [hself, ih]
    · have hnil : (f a).filter (fun r => r.route == i) = [] :=
        List.filter_eq_nil_iff.mpr fun r hr => by simp [hf a r hr, h]
      have hbeq : (a == i) = false := by simp [h]
      simp [hnil, hbeq, ih]

lemma range_filter_beq (i : Nat) :
    ∀ n : Nat, (List.range n).filter (fun j => j == i) =
      if i < n then [i] else [] := by
  intro n
  induction n with
  | zero => simp
  | succ m ih =>
    rw [List.range_succ, List.filter_append, ih]
    by_cases h1 : m = i
    · subst h1
      simp [Nat.lt_irrefl, Nat.lt_succ_self]
    · have hbeq : (m == i) = false := by simp [h1]
      by_cases h2 : i < m
      · simp [hbeq, h2, Nat.lt_succ_of_lt h2]
      · have h3 : ¬ i < m + 1 := by omega
        simp [hbeq, h2, h3]

/-- C10 amended: whenever solve_cvrp finds a solution, the output table
contains one route group per vehicle id below num_vehicles, every vehicle
with a nonempty walk contributes a group, and a vehicle the solver leaves
unused (walk depot -> depot) contributes exactly two depot stops whose
Truck_Load both equal the depot's own demand value (zero only when that
demand is zero) and whose cumulative distances are 0 and the diagonal
matrix entry at the depot. -/
theorem c10_route_groups_amended (data : DataModel) (solution : List (List Nat))
    (i : Nat) (hi : i < solution.length) (hseq : solution.getD i [] = [0, 0]) :
    (buildRouteTable data solution).filter (fun r => r.route == i) =
      [⟨0, i, 1, 0, data.demands.getD 0 0⟩,
       ⟨0, i, 2, matrixEntry data.distance_matrix 0 0, data.demands.getD 0 0⟩] ∧
    (∀ r ∈ buildRouteTable data solution, r.route < solution.length) ∧
    (∀ j, j < solution.length → solution.getD j [] ≠ [] →
      ∃ r ∈ buildRouteTable data solution, r.route = j) := by
  refine ⟨?_, ?_, ?_⟩
  · rw [buildRouteTable,
      filter_flatMap_blocks (vehicleRows data solution) i
        (vehicleRows_route data solution), range_filter_beq, if_pos hi]
    simp only [List.flatMap_cons, List.flatMap_nil, List.append_nil]
    rw [vehicleRows, hseq]
    simp [parseDists, parseLoads, matrixEntry, List.range_succ]
  · intro r hr
    obtain ⟨j, hj, hmem⟩ := List.mem_flatMap.mp hr
    rw [vehicleRows_route data solution j r hmem]
    exact List.mem_range.mp hj
  · intro j hj hne
    have hlen : 0 < (solution.getD j []).length := List.length_pos.mpr hne
    refine ⟨⟨(solution.getD j []).getD 0 0, j, 1,
        (parseDists data.distance_matrix 0 (solution.getD j [])).getD 0 0,
        (parseLoads data.demands 0 (solution.getD j [])).getD 0 0⟩,
      List.mem_flatMap.mpr ⟨j, List.mem_range.mpr hj, ?_⟩, rfl⟩
    exact List.mem_map.mpr ⟨0, List.mem_range.mpr hlen, rfl⟩

/-- The data model of a concrete two-vehicle instance whose depot demand
is 3 (as happens for every stage-2 sub-problem with a positive dropoff
total, where the depot's Capacity entry is the dropoff sum). -/
def dataC10 : DataModel := ⟨[[0, 5], [5, 0]], [3, 2], 2, [5, 5], 0⟩

/-- A solution for dataC10: vehicle 0 drives 0 -> 1 -> 0, vehicle 1 is
unused (0 -> 0). -/
def solC10 : List (List Nat) := [[0, 1, 0], [0, 0]]

/-- C10 counterexample: the unused vehicle 1 contributes two depot stops
whose Truck_Load is 3, not zero, because the depot's demand entry is 3;
the empty route still counts in the metadata route count. -/
theorem c10_empty_route_load_counterexample :
    (buildRouteTable dataC10 solC10).filter (fun r => r.route == 1) =
      [⟨0, 1, 1, 0, 3⟩, ⟨0, 1, 2, 0, 3⟩] ∧
    (∃ r ∈ buildRouteTable dataC10 solC10, r.route = 1 ∧ r.truckLoad ≠ 0) ∧
    numRoutesFound (buildRouteTable dataC10 solC10) = 2 := by
  decide

/-- C10 witness: the amended statement applied to the concrete instance
dataC10 with unused vehicle 1. -/
theorem c10_route_groups_witness :
    (buildRouteTable dataC10 solC10).filter (fun r => r.route == 1) =
      [⟨0, 1, 1, 0, dataC10.demands.getD 0 0⟩,
       ⟨0, 1, 2, matrixEntry dataC10.distance_matrix 0 0,
         dataC10.demands.getD 0 0⟩] :=
  (c10_route_groups_amended dataC10 solC10 1 (by decide) (by decide)).1

/-! ### C1: the depot Capacity entry of a stage-2 sub-problem

A location row carries the two demand columns used by the stage-2
construction; tote demands are whole tote counts, modelled as integers.
-/

/-- One location row: Daily_Pickup_Totes and Weekly_Dropoff_Totes. -/
structure Location where
  pickup : Int
  dropoff : Int
deriving DecidableEq

/-- The Capacity column built by solve_bidirectional_cvrp (google_or.py
lines 273-276) for the retained stops of one stage-1 route (depot first,
trailing depot return already dropped):
[sum of Weekly_Dropoff_Totes] + Daily_Pickup_Totes list from index 1. -/
def bidirCapacityColumn (stops : List Location) : List Int :=
  (stops.map Location.dropoff).sum :: (stops.map Location.pickup).drop 1

/-- The Capacity column built by combine_dropoffs_pickups
(combine_dropoffs_pickups.py lines 40-54): start from the
Daily_Pickup_Totes list, append -dropoff for every row with nonzero
Weekly_Dropoff_Totes while accumulating their total, then overwrite
entry 0 with that total. -/
def combineCapacities (rows : List Location) : List Int :=
  let capacities := rows.map Location.pickup ++
    ((rows.filter fun r => r.dropoff != 0).map fun r => -1 * r.dropoff)
  let dropoff_total := ((rows.filter fun r => r.dropoff != 0).map Location.dropoff).sum
  capacities.set 0 dropoff_total

/-- C1 counterexample: for the route [depot, one stop with dropoff 3],
both constructions put +3, not -3, in the depot's Capacity entry. -/
theorem c1_depot_sign_counterexample :
    ([(⟨0, 0⟩ : Location), ⟨2, 3⟩].map Location.dropoff).sum = 3 ∧
    (bidirCapacityColumn [⟨0, 0⟩, ⟨2, 3⟩]).head? = some 3 ∧
    (combineCapacities [⟨0, 0⟩, ⟨2, 3⟩]).head? = some 3 ∧
    (3 : Int) ≠ -3 := by
  decide

lemma filter_dropoff_sum (rows : List Location) :
    ((rows.filter fun r => r.dropoff != 0).map Location.dropoff).sum =
      (rows.map Location.dropoff).sum := by
  induction rows with
  | nil => rfl
  | cons r t ih =>
    by_cases h : r.dropoff = 0
    · simp [List.filter_cons, h, ih]
    · simp [List.filter_cons, h, ih]

/-- C1 amended: the depot entry of the stage-2 Capacity column equals the
positive sum of the dropoff demands over the route's retained stops, in
both solve_bidirectional_cvrp and combine_dropoffs_pickups (the latter
sums only rows with nonzero dropoff, which gives the same total). -/
theorem c1_depot_capacity_amended (stops : List Location) :
    (bidirCapacityColumn stops).head? = some ((stops.map Location.dropoff).sum) ∧
    (stops ≠ [] →
      (combineCapacities stops).head? = some ((stops.map Location.dropoff).sum)) := by
  constructor
  · rfl
  · intro hne
    obtain ⟨r, t, rfl⟩ := List.exists_cons_of_ne_nil hne
    show (((r :: t).map Location.pickup ++ _).set 0 _).head? = _
    rw [List.map_cons, List.cons_append, List.set_cons_zero]
    rw [List.head?_cons, filter_dropoff_sum]

/-- C1 witness: the amended statement evaluated on the concrete route
[depot, stop with pickup 2 and dropoff 3]. -/
theorem c1_depot_capacity_witness :
    (combineCapacities [⟨0, 0⟩, ⟨2, 3⟩]).head? = some 3 :=
  ((c1_depot_capacity_amended [⟨0, 0⟩, ⟨2, 3⟩]).2 (by decide)).trans (by decide)

/-! ### C2: the combined stage-2 distance matrix

The raw distance matrix is modelled as a lookup function on the original
pandas labels; raw entries are rationals.
-/

/-- Python `.iloc[:, -n:]` applied to the columns of one row: the last n
columns for positive n, but ALL columns when n = 0 (a -0 slice starts at
the beginning). -/
def ilocTailCols (n : Nat) (row : List ℚ) : List ℚ :=
  if n = 0 then row else row.drop (row.length - n)

/-- The combined stage-2 distance matrix of solve_bidirectional_cvrp
(google_or.py lines 285-306): rows are the pickup rows followed by the
rows of stops with positive dropoff; columns are first restricted to the
pickup indices, then the last num_dropoff_sites columns of that selection
are appended again. -/
def combinedDistMatrix (m : Nat → Nat → ℚ) (dropoff : Nat → Int)
    (pickupIdx : List Nat) : List (List ℚ) :=
  let dropoffIdx := pickupIdx.filter fun i => 0 < dropoff i
  let rowIdx := pickupIdx ++ dropoffIdx
  let base := rowIdx.map fun r => pickupIdx.map fun c => m r c
  base.map fun row => row ++ ilocTailCols dropoffIdx.length row

/-- Modelled from the spec for comparison with the source:
extractSubmatrix, the reindexed submatrix whose (i, j) entry is
m[idx[i]][idx[j]] (spec section 4.2); segment_pickup_loops.py line 54
builds exactly this via .loc[res_idx][[str(i) for i in res_idx]]. -/
def specSubmatrix (m : Nat → Nat → ℚ) (idx : List Nat) : List (List ℚ) :=
  idx.map fun r => idx.map fun c => m r c

/-- A concrete 3x3 distance matrix with pairwise distinct entries. -/
def mC2 (i j : Nat) : ℚ :=
  (([[0, 1, 2], [3, 4, 5], [6, 7, 8]].getD i []).getD j 0 : ℚ)

/-- Dropoff demands for the C2 instance: only location 1 has a dropoff. -/
def dropoffC2 (i : Nat) : Int :=
  if i = 1 then 1 else 0

/-- C2: on the stage-1 route visiting 0, 1, 2 where only location 1 has a
dropoff, the combined matrix duplicates the column of location 2 (the
last pickup column) instead of the column of dropoff location 1: entry
(0, 3) is m[0][2] = 2, while the duplicated-column specification
(specSubmatrix over indices [0, 1, 2, 1]) requires m[0][1] = 1. -/
theorem c2_combined_matrix_bug_eval :
    combinedDistMatrix mC2 dropoffC2 [0, 1, 2] =
      [[0, 1, 2, 2], [3, 4, 5, 5], [6, 7, 8, 8], [3, 4, 5, 5]] ∧
    specSubmatrix mC2 [0, 1, 2, 1] =
      [[0, 1, 2, 1], [3, 4, 5, 4], [6, 7, 8, 7], [3, 4, 5, 4]] ∧
    ((combinedDistMatrix mC2 dropoffC2 [0, 1, 2]).getD 0 []).getD 3 0 = 2 ∧
    ((specSubmatrix mC2 [0, 1, 2, 1]).getD 0 []).getD 3 0 = 1 ∧
    (2 : ℚ) ≠ 1 := by
  refine ⟨rfl, rfl, rfl, rfl, by decide⟩

/-! ### C4: composition over stage-1 routes with per-route stage-2 solves -/

/-- The final route identifier of a stage-2 sub-route, modelling the
string str(grp) + "-" + str(route) written into the Route column
(google_or.py lines 326-328). -/
structure SubRouteTag where
  stage1 : Nat
  stage2 : Nat
deriving DecidableEq

/-- The per-route loop of solve_bidirectional_cvrp (google_or.py lines
261-337): the accumulator starts as None; for each stage-1 route group
the stage-2 solve is attempted; a None result is skipped with a bare
continue (nothing is recorded); a solution is retagged with the stage-1
group id and concatenated. -/
def composeStageTwo (groups : List Nat) (solveStage2 : Nat → Option (List Nat)) :
    Option (List SubRouteTag) :=
  groups.foldl
    (fun acc grp =>
      match solveStage2 grp with
      | none => acc
      | some rows =>
          let tagged := rows.map fun r => (⟨grp, r⟩ : SubRouteTag)
          match acc with
          | none => some tagged
          | some a => some (a ++ tagged))
    none

/-- The stage-2 stub for the C4 instance: route group 1 is infeasible,
group 0 yields one sub-route, group 2 yields two. -/
def solveStage2C4 (g : Nat) : Option (List Nat) :=
  if g = 1 then none else if g = 0 then some [0] else some [0, 1]

/-- C4 counterexample: with stage-1 groups [0, 1, 2] and the stage-2
solve returning None exactly for group 1, the composition still returns
the retagged routes of groups 0 and 2, but its result records no
skipped-route entry at all: the output is only the route list, and the
number of entries referring to group 1 is 0, not 1. -/
theorem c4_no_skip_record_counterexample :
    composeStageTwo [0, 1, 2] solveStage2C4 =
      some [⟨0, 0⟩, ⟨2, 0⟩, ⟨2, 1⟩] ∧
    (([(⟨0, 0⟩ : SubRouteTag), ⟨2, 0⟩, ⟨2, 1⟩].filter
        fun t => t.stage1 == 1).length = 0) ∧
    (0 : Nat) ≠ 1 := by
  decide

lemma composeStageTwo_foldl_skip (solveStage2 : Nat → Option (List Nat))
    (bad : Nat) (hbad : solveStage2 bad = none) :
    ∀ (groups : List Nat) (acc : Option (List SubRouteTag)),
      groups.foldl
        (fun acc grp =>
          match solveStage2 grp with
          | none => acc
          | some rows =>
              let tagged := rows.map fun r => (⟨grp, r⟩ : SubRouteTag)
              match acc with
              | none => some tagged
              | some a => some (a ++ tagged))
        acc =
      (groups.filter fun g => g != bad).foldl
        (fun acc grp =>
          match solveStage2 grp with
          | none => acc
          | some rows =>
              let tagged := rows.map fun r => (⟨grp, r⟩ : SubRouteTag)
              match acc with
              | none => some tagged
              | some a => some (a ++ tagged))
        acc := by
  intro groups
  induction groups with
  | nil => intro acc; rfl
  | cons g t ih =>
    intro acc
    by_cases h : g = bad
    · subst h
      have hbeq : (g != g) = false := by simp
      simp only [List.foldl_cons, List.filter_cons, hbeq, hbad]
      exact ih acc
    · have hbeq : (g != bad) = true := by simp [h]
      simp only [List.foldl_cons, List.filter_cons, hbeq]
      exact ih _

lemma composeStageTwo_tags_invariant (solveStage2 : Nat → Option (List Nat))
    (bad : Nat) (hbad : solveStage2 bad = none) :
    ∀ (groups : List Nat) (acc : Option (List SubRouteTag)),
      (∀ a, acc = some a → ∀ t ∈ a, t.stage1 ≠ bad) →
      ∀ tags,
        groups.foldl
          (fun acc grp =>
            match solveStage2 grp with
            | none => acc
            | some rows =>
                let tagged := rows.map fun r => (⟨grp, r⟩ : SubRouteTag)
                match acc with
                | none => some tagged
                | some a => some (a ++ tagged))
          acc = some tags →
        ∀ t ∈ tags, t.stage1 ≠ bad := by
  intro groups
  induction groups with
  | nil =>
    intro acc hacc tags htags
    exact hacc tags htags
  | cons g t ih =>
    intro acc hacc tags htags
    rw [List.foldl_cons] at htags
    by_cases hg : g = bad
    · subst hg
      rw [hbad] at htags
      exact ih acc hacc tags htags
    · cases hsolve : solveStage2 g with
      | none =>
        rw [hsolve] at htags
        exact ih acc hacc tags htags
      | some rows =>
        rw [hsolve] at htags
        refine ih _ ?_ tags htags
        intro a ha s hs
        cases acc with
        | none =>
          simp only [Option.some.injEq] at ha
          obtain ⟨r, _, hrs⟩ := List.mem_map.mp (ha ▸ hs)
          rw [← hrs]
          exact hg
        | some a0 =>
          simp only [Option.some.injEq] at ha
          rcases List.mem_append.mp (ha ▸ hs) with h1 | h2
          · exact hacc a0 rfl s h1
          · obtain ⟨r, _, hrs⟩ := List.mem_map.mp h2
            rw [← hrs]
            exact hg

/-- C4 amended: if the stage-2 solve returns None for a stage-1 route,
the composition neither aborts nor records anything about that route: its
result is identical to the composition over the group list with that
route removed, and no tag in any returned route list refers to the
infeasible route (the only trace of the skip is the route's absence). -/
theorem c4_skip_continue_amended (groups : List Nat)
    (solveStage2 : Nat → Option (List Nat)) (bad : Nat)
    (hbad : solveStage2 bad = none) :
    composeStageTwo groups solveStage2 =
      composeStageTwo (groups.filter fun g => g != bad) solveStage2 ∧
    ∀ tags, composeStageTwo groups solveStage2 = some tags →
      ∀ t ∈ tags, t.stage1 ≠ bad := by
  constructor
  · exact composeStageTwo_foldl_skip solveStage2 bad hbad groups none
  · exact composeStageTwo_tags_invariant solveStage2 bad hbad groups none
      (fun a ha => by cases ha)

/-- C4 witness: the amended statement on the concrete stub where group 1
is infeasible: the composition equals the one over groups [0, 2]. -/
theorem c4_skip_continue_witness :
    composeStageTwo [0, 1, 2] solveStage2C4 =
      composeStageTwo [0, 2] solveStage2C4 :=
  ((c4_skip_continue_amended [0, 1, 2] solveStage2C4 1 (by decide)).1).trans
    (by decide)

/-! ### C5: sensitivity_analysis.py -/

/-- One row of the routes table read by sensitivity_analysis: the final
route identifier and the demand and cumulative-distance columns. -/
structure RouteRow where
  route : String
  pickup : Int
  dropoff : Int
  cumdist : Int
deriving DecidableEq

/-- One row of the summary table sensitivity_analysis builds. -/
structure SummaryRow where
  routeName : String
  pickupDemands : Int
  pickupEstimatedCups : Int
  dropoffDemands : Int
  dropoffEstimatedCups : Int
  cumulativeDistances : Int
deriving DecidableEq

/-- pandas Series.unique: the distinct values in first-occurrence order. -/
def pdUnique (l : List String) : List String :=
  l.foldl (fun acc x => if x ∈ acc then acc else acc ++ [x]) []

/-- filter_df (pipeline/utils/filter_df.py): the rows whose column value
equals val. -/
def filter_df (rows : List RouteRow) (val : String) : List RouteRow :=
  rows.filter fun r => r.route == val

/-- sensitivity_analysis (sensitivity_analysis.py lines 10-69), modelling
Python local-variable semantics explicitly: line 35 initializes
total_pickup_tote (no trailing s, and that name is never read again),
so the accumulator total_pickup_totes read by line 54 and line 62 is an
unbound local, modelled as an Option that starts out none.  Per group the
code appends a summary row whose estimates use the hardcoded multipliers
50 and 250 and whose dropoff estimate is 250 * the PICKUP total (line 50),
then accumulates the totals, and finally appends a Totals row. -/
def sensitivity_analysis (routes : List RouteRow) :
    Except String (List SummaryRow) := do
  let mut res : List SummaryRow := []
  let mut total_pickup_totes : Option Int := none
  let mut total_pickup_cups : Int := 0
  let mut total_dropoff_totes : Int := 0
  let mut total_dropoff_cups : Int := 0
  let mut total_dist_trav : Int := 0
  for assignment in pdUnique (routes.map RouteRow.route) do
    let df := filter_df routes assignment
    let pickup_demand_total := (df.map RouteRow.pickup).sum
    let dropoff_demand_total := (df.map RouteRow.dropoff).sum
    let distance_total ← match (df.map RouteRow.cumdist).getLast? with
      | none => throw "IndexError: df.iloc[-1] on empty frame"
      | some v => pure v
    res := res ++ [⟨assignment, pickup_demand_total, 50 * pickup_demand_total,
      dropoff_demand_total, 250 * pickup_demand_total, distance_total⟩]
    match total_pickup_totes with
    | none => throw "UnboundLocalError: total_pickup_totes"
    | some v => total_pickup_totes := some (v + pickup_demand_total)
    total_pickup_cups := total_pickup_cups + 50 * pickup_demand_total
    total_dropoff_totes := total_dropoff_totes + dropoff_demand_total
    total_dropoff_cups := total_dropoff_cups + 250 * dropoff_demand_total
    total_dist_trav := total_dist_trav + distance_total
  let totals_pickup ← match total_pickup_totes with
    | none => throw "UnboundLocalError: total_pickup_totes"
    | some v => pure v
  res := res ++ [⟨"Totals", totals_pickup, total_pickup_cups,
    total_dropoff_totes, total_dropoff_cups, total_dist_trav⟩]
  pure res

/-- C5: sensitivity_analysis never produces a summary: the accumulator
total_pickup_totes is read before ever being assigned (the initialization
on line 35 spells it total_pickup_tote), so the function fails with an
UnboundLocalError on every input, here evaluated on a one-route table and
on the empty table. -/
theorem c5_sensitivity_crash_eval :
    sensitivity_analysis [⟨"0-0", 2, 3, 10⟩] =
      Except.error "UnboundLocalError: total_pickup_totes" ∧
    sensitivity_analysis [] =
      Except.error "UnboundLocalError: total_pickup_totes" := by
  exact ⟨rfl, rfl⟩

end Perpetual
